import Mathlib

/-!
Verification development for the query-construction and paging core of the
news-search-api repository (modules `api.py` and `client.py`).

Python values are modelled as follows: `str` is Lean `String` (a sequence of
Unicode scalar values; `str.encode()` / `bytes.decode()` are modelled by an
explicit UTF-8 codec over `List Nat` bytes), `int` is `Int`, `None` is `none`,
raised exceptions are the error side of `Except PyErr`.  Python truthiness of
optional strings/ints (`if x:` / `x or d`) is modelled explicitly by
`pyTruthy*` / `pyOr*`.
-/

namespace NewsSearch

/-- Errors that can escape the query/paging core.  `httpException` models
`fastapi.HTTPException(status_code, detail)` (mapped to an HTTP status by the
framework); the remaining constructors model exceptions that the source never
catches, so they surface as internal faults, not client errors. -/
inductive PyErr where
  | httpException (status : Int) (detail : String)
  | binasciiError
  | indexError
  | keyError (key : String)
deriving DecidableEq

/-- Python truthiness of an optional string: `None` and `""` are falsy. -/
def pyTruthyStr : Option String → Bool
  | none => false
  | some s => s != ""

/-- Python truthiness of an optional int: `None` and `0` are falsy. -/
def pyTruthyInt : Option Int → Bool
  | none => false
  | some n => n != 0

/-- Python `x or d` on an optional string. -/
def pyOrStr (x : Option String) (d : String) : String :=
  if pyTruthyStr x then x.getD "" else d

/-- Python `x or d` on an optional int. -/
def pyOrInt (x : Option Int) (d : Int) : Int :=
  if pyTruthyInt x then x.getD 0 else d

namespace Codec

/-- Value-to-character table for URL-safe base64, i.e. the standard base64
alphabet composed with the `altchars=b"-_"` translation used by
`base64.b64encode(..., b"-_")`: `A`-`Z`, `a`-`z`, `0`-`9`, `-`, `_`. -/
def valToChar (d : Nat) : Char :=
  if d < 26 then Char.ofNat (65 + d)
  else if d < 52 then Char.ofNat (97 + (d - 26))
  else if d < 62 then Char.ofNat (48 + (d - 52))
  else if d = 62 then '-'
  else '_'

/-- Character-to-value table of `binascii.a2b_base64` composed with the
`altchars=b"-_"` translation done by `base64.b64decode(..., b"-_")` (which maps
`-` to `+` and `_` to `/` before decoding, so both alphabets are accepted).
Returns `none` for characters outside the alphabet (`=` is handled
separately by the decoder). -/
def charVal (c : Char) : Option Nat :=
  let n := c.toNat
  if 65 ≤ n ∧ n ≤ 90 then some (n - 65)
  else if 97 ≤ n ∧ n ≤ 122 then some (n - 97 + 26)
  else if 48 ≤ n ∧ n ≤ 57 then some (n - 48 + 52)
  else if n = 43 ∨ n = 45 then some 62
  else if n = 47 ∨ n = 95 then some 63
  else none

/-- `base64.b64encode(bytes, b"-_")`: bytes to base64 characters, padded
with `=`. -/
def b64encode : List Nat → List Char
  | [] => []
  | [a] => [valToChar (a / 4), valToChar (a % 4 * 16), '=', '=']
  | [a, b] =>
      [valToChar (a / 4), valToChar (a % 4 * 16 + b / 16), valToChar (b % 16 * 4), '=']
  | a :: b :: c :: rest =>
      valToChar (a / 4) :: valToChar (a % 4 * 16 + b / 16) ::
        valToChar (b % 16 * 4 + c / 64) :: valToChar (c % 64) :: b64encode rest

/-- The state machine of CPython's `binascii.a2b_base64` in non-strict mode
(`validate=False`, the default used by `base64.b64decode` in the source):
characters outside the alphabet are skipped; `=` terminates decoding once a
complete pad sequence is seen; decoding fails (raising `binascii.Error`,
modelled as `none`) iff the input ends in the middle of a base64 quantum.
State: current quantum position (0-3), pending bits, consecutive-pad count,
accumulated output (reversed). -/
def a2b : List Char → Nat → Nat → Nat → List Nat → Option (List Nat)
  | [], quadPos, _, _, out => if quadPos = 0 then some out.reverse else none
  | ch :: rest, quadPos, leftchar, pads, out =>
    if ch = '=' then
      if 2 ≤ quadPos then
        if 4 ≤ quadPos + (pads + 1) then some out.reverse
        else a2b rest quadPos leftchar (pads + 1) out
      else a2b rest quadPos leftchar pads out
    else
      match charVal ch with
      | none => a2b rest quadPos leftchar pads out
      | some d =>
        match quadPos with
        | 0 => a2b rest 1 d 0 out
        | 1 => a2b rest 2 (d % 16) 0 ((leftchar * 4 + d / 16) :: out)
        | 2 => a2b rest 3 (d % 4) 0 ((leftchar * 16 + d / 4) :: out)
        | _ => a2b rest 0 0 0 ((leftchar * 64 + d) :: out)

/-- UTF-8 encoding of one Unicode scalar value (Python `str.encode()` per
character). -/
def utf8EncodeChar (n : Nat) : List Nat :=
  if n < 0x80 then [n]
  else if n < 0x800 then [0xC0 + n / 64, 0x80 + n % 64]
  else if n < 0x10000 then [0xE0 + n / 4096, 0x80 + n / 64 % 64, 0x80 + n % 64]
  else [0xF0 + n / 262144, 0x80 + n / 4096 % 64, 0x80 + n / 64 % 64, 0x80 + n % 64]

/-- UTF-8 encoding of a character sequence (Python `str.encode()`). -/
def utf8Encode : List Char → List Nat
  | [] => []
  | c :: cs => utf8EncodeChar c.toNat ++ utf8Encode cs

/-- Whether a byte is a UTF-8 continuation byte (`0b10xxxxxx`). -/
abbrev isCont (b : Nat) : Prop := 0x80 ≤ b ∧ b < 0xC0

mutual

/-- Strict UTF-8 decoding (Python `bytes.decode()`), rejecting truncated
sequences, stray continuation bytes, overlong encodings, surrogates and
out-of-range code points (`UnicodeDecodeError` is modelled as `none`). -/
def utf8Decode : List Nat → Option (List Char)
  | [] => some []
  | b0 :: rest =>
    if b0 < 0x80 then
      (utf8Decode rest).map (fun cs => Char.ofNat b0 :: cs)
    else if b0 < 0xC2 then none
    else if b0 < 0xE0 then utf8DecTail2 b0 rest
    else if b0 < 0xF0 then utf8DecTail3 b0 rest
    else if b0 < 0xF5 then utf8DecTail4 b0 rest
    else none

/-- Continuation of `utf8Decode` for a two-byte lead `b0`. -/
def utf8DecTail2 (b0 : Nat) : List Nat → Option (List Char)
  | b1 :: rest1 =>
    if isCont b1 then
      (utf8Decode rest1).map (fun cs => Char.ofNat ((b0 - 0xC0) * 64 + (b1 - 0x80)) :: cs)
    else none
  | [] => none

/-- Continuation of `utf8Decode` for a three-byte lead `b0`. -/
def utf8DecTail3 (b0 : Nat) : List Nat → Option (List Char)
  | b1 :: b2 :: rest2 =>
    if isCont b1 ∧ isCont b2 then
      if 0x800 ≤ (b0 - 0xE0) * 4096 + (b1 - 0x80) * 64 + (b2 - 0x80) ∧
          ¬(0xD800 ≤ (b0 - 0xE0) * 4096 + (b1 - 0x80) * 64 + (b2 - 0x80) ∧
            (b0 - 0xE0) * 4096 + (b1 - 0x80) * 64 + (b2 - 0x80) < 0xE000) then
        (utf8Decode rest2).map
          (fun cs => Char.ofNat ((b0 - 0xE0) * 4096 + (b1 - 0x80) * 64 + (b2 - 0x80)) :: cs)
      else none
    else none
  | _ => none

/-- Continuation of `utf8Decode` for a four-byte lead `b0`. -/
def utf8DecTail4 (b0 : Nat) : List Nat → Option (List Char)
  | b1 :: b2 :: b3 :: rest3 =>
    if isCont b1 ∧ isCont b2 ∧ isCont b3 then
      if 0x10000 ≤ (b0 - 0xF0) * 262144 + (b1 - 0x80) * 4096 + (b2 - 0x80) * 64 + (b3 - 0x80) ∧
          (b0 - 0xF0) * 262144 + (b1 - 0x80) * 4096 + (b2 - 0x80) * 64 + (b3 - 0x80) < 0x110000 then
        (utf8Decode rest3).map
          (fun cs => Char.ofNat
            ((b0 - 0xF0) * 262144 + (b1 - 0x80) * 4096 + (b2 - 0x80) * 64 + (b3 - 0x80)) :: cs)
      else none
    else none
  | _ => none

end

/-- `base64.b64encode(strng.encode(), b"-_").decode().replace("=", "~")`:
the shared body of `api.encode` and `client.encode_key`. -/
def b64StrEncode (s : String) : String :=
  String.mk ((b64encode (utf8Encode s.data)).map (fun c => if c = '=' then '~' else c))

/-- `base64.b64decode(strng.replace("~", "=").encode(), b"-_").decode()`:
the shared body of `api.decode` and `client.decode_key`.  `none` models a
raised `binascii.Error` or `UnicodeDecodeError`. -/
def b64StrDecode (t : String) : Option String :=
  (a2b (t.data.map (fun c => if c = '~' then '=' else c)) 0 0 0 []).bind
    (fun bytes => (utf8Decode bytes).map String.mk)

end Codec

/-- A value occurring in an Elasticsearch request body (a JSON-like Python
dict value). -/
inductive EsVal where
  | s (v : String)
  | n (v : Int)
  | b (v : Bool)
  | arr (vs : List EsVal)
  | obj (fields : List (String × EsVal))

/-- A request body: a Python dict, modelled as an insertion-ordered
association list.  All dict keys built by the source are pairwise distinct,
so `dict.update` / item assignment are modelled by list append. -/
abbrev EsBody := List (String × EsVal)

/-- The `_source` document of a backend hit: the fixed attribute set the
queries project.  Each field is `src.get(name)`, i.e. `None` when absent. -/
structure SrcDoc where
  article_title : Option String := none
  normalized_article_title : Option String := none
  publication_date : Option String := none
  indexed_date : Option String := none
  language : Option String := none
  full_language : Option String := none
  canonical_domain : Option String := none
  url : Option String := none
  normalized_url : Option String := none
  original_url : Option String := none
  text_content : Option String := none
  text_extraction : Option String := none
deriving DecidableEq

/-- A backend hit: its `_source` document and its `sort` array.  Sort values
are modelled in their string form (the source applies `str(...)` before
encoding them into a cursor). -/
structure Hit where
  source : SrcDoc
  sort : List String := []
deriving DecidableEq

/-- An aggregation bucket: `{"key": ..., "key_as_string": ..., "doc_count": ...}`. -/
structure Bucket where
  key : String
  key_as_string : String := ""
  doc_count : Int
deriving DecidableEq

/-- A formatted result row: the dict produced by `format_match`. -/
abbrev FmtRow := List (String × Option String)

namespace Api

def VALID_SORT_ORDERS : List String := ["asc", "desc"]

def VALID_SORT_FIELDS : List String := ["publication_date", "indexed_date"]

/-- `api.encode`: cursor encoding (same body as `client.encode_key`). -/
def encode : String → String := Codec.b64StrEncode

/-- `api.decode`: cursor decoding (same body as `client.decode_key`).
`none` models the raised exception on failure. -/
def decode : String → Option String := Codec.b64StrDecode

/-- `api.cs_basic_query`. -/
def cs_basic_query (q : String) (expanded : Bool) : EsBody :=
  [("_source", .arr (((["article_title", "normalized_article_title",
      "publication_date", "indexed_date", "language", "full_language",
      "canonical_domain", "url", "normalized_url", "original_url"] : List String) ++
      (if expanded then ["text_content", "text_extraction"] else [])).map .s)),
   ("query", .obj [("query_string", .obj
      [("default_field", .s "text_content"),
       ("default_operator", .s "AND"),
       ("query", .s q)])])]

/-- `api._validate_sort_order`: 400 on a truthy value outside
`VALID_SORT_ORDERS`; `None` and `""` pass through unchecked. -/
def validate_sort_order (sort_order : Option String) : Except PyErr (Option String) :=
  if pyTruthyStr sort_order && !VALID_SORT_ORDERS.contains (sort_order.getD "") then
    .error (.httpException 400 "Invalid sort order (must be on of asc, desc)")
  else .ok sort_order

/-- `api._validate_sort_field`: 400 on a truthy value outside
`VALID_SORT_FIELDS`; `None` and `""` pass through unchecked. -/
def validate_sort_field (sort_field : Option String) : Except PyErr (Option String) :=
  if pyTruthyStr sort_field && !VALID_SORT_FIELDS.contains (sort_field.getD "") then
    .error (.httpException 400 "Invalid sort field (must be on of publication_date, indexed_date)")
  else .ok sort_field

/-- `api._validate_page_size`: 400 when `page_size` is truthy (non-`None`,
nonzero) and `< 1`. -/
def validate_page_size (page_size : Option Int) : Except PyErr (Option Int) :=
  if pyTruthyInt page_size && decide (page_size.getD 0 < 1) then
    .error (.httpException 400 "Invalid page size (must be greater than 0)")
  else .ok page_size

/-- `api.cs_paged_query`.  `maxpage` is `config["maxpage"]`.  Validation of
sort field, sort order and page size happens in this order, before the resume
cursor is decoded; a decode failure is an uncaught `binascii.Error`. -/
def cs_paged_query (q : String) (resume : Option String) (expanded : Bool)
    (sort_field sort_order : Option String) (page_size : Option Int)
    (maxpage : Int) : Except PyErr EsBody :=
  match validate_sort_field (some (pyOrStr sort_field "publication_date")) with
  | .error e => .error e
  | .ok fsf =>
  match validate_sort_order (some (pyOrStr sort_order "desc")) with
  | .error e => .error e
  | .ok fso =>
  match validate_page_size (some (pyOrInt page_size maxpage)) with
  | .error e => .error e
  | .ok sz =>
  let query := cs_basic_query q expanded ++
    [("size", .n (sz.getD 0)),
     ("track_total_hits", .b false),
     ("sort", .obj [(fsf.getD "", .obj
        [("order", .s (fso.getD "")),
         ("format", .s "basic_date_time_no_millis")])])]
  if pyTruthyStr resume then
    match decode (resume.getD "") with
    | none => .error .binasciiError
    | some v => .ok (query ++ [("search_after", .arr [.s v])])
  else .ok query

/-- `api.format_match`.  `uuh` is `mcmetadata.urls.unique_url_hash`, an
external library function: the embedding abstracts over it, recording only
that one fixed function of the url is used for every hit.  The `base` and
`collection` parameters of the source function do not occur in its body and
are omitted. -/
def format_match (uuh : Option String → String) (hit : Hit) (expanded : Bool) : FmtRow :=
  let src := hit.source
  ([("article_title", src.article_title),
    ("normalized_article_title", src.normalized_article_title),
    ("publication_date",
      if pyTruthyStr src.publication_date
      then some ((src.publication_date.getD "").take 10) else none),
    ("indexed_date", src.indexed_date),
    ("language", src.language),
    ("full_langauge", src.full_language),
    ("url", src.url),
    ("normalized_url", src.normalized_url),
    ("original_url", src.original_url),
    ("canonical_domain", src.canonical_domain),
    ("id", some (uuh src.url))] : FmtRow) ++
  (if expanded then
    [("text_content", src.text_content), ("text_extraction", src.text_extraction)]
   else [])

/-- `api.format_day_counts`: buckets to a `key_as_string[:10] -> doc_count`
mapping (keys are distinct in backend responses, so a list of pairs). -/
def format_day_counts (bucket : List Bucket) : List (String × Int) :=
  bucket.map (fun item => (item.key_as_string.take 10, item.doc_count))

/-- `api.format_counts`: buckets to a `key -> doc_count` mapping. -/
def format_counts (bucket : List Bucket) : List (String × Int) :=
  bucket.map (fun item => (item.key, item.doc_count))

/-- The backend response consumed by `api._search_overview`: sample hits, the
backend-reported total (`hits.total.value`) and the four aggregations of
`cs_overview_query`. -/
structure OverviewResponse where
  hits : List Hit
  total_value : Int
  daily_buckets : List Bucket := []
  lang_buckets : List Bucket := []
  domain_buckets : List Bucket := []
  tld_buckets : List Bucket := []

/-- The response dict of `api._search_overview`. -/
structure Overview where
  query : String
  total : Int
  topdomains : List (String × Int)
  toptlds : List (String × Int)
  toplangs : List (String × Int)
  dailycounts : List (String × Int)
  «matches» : List FmtRow

/-- `api._search_overview`, from the backend response on: 404 on zero hits,
otherwise the overview dict with `total = max(reported total, TLD bucket
sum)`. -/
def search_overview (uuh : Option String → String) (q : String)
    (res : OverviewResponse) : Except PyErr Overview :=
  if res.hits = [] then .error (.httpException 404 "No results found!")
  else
    let total := res.total_value
    let tldsum := (res.tld_buckets.map (fun item => item.doc_count)).sum
    .ok { query := q
          total := max total tldsum
          topdomains := format_counts res.domain_buckets
          toptlds := format_counts res.tld_buckets
          toplangs := format_counts res.lang_buckets
          dailycounts := format_day_counts res.daily_buckets
          «matches» := res.hits.map (fun h => format_match uuh h false) }

/-- `api._search_result`.  The backend call is the external boundary: `hits`
is `res["hits"]["hits"]` of its response.  Returns the formatted page plus
the optional `x-resume-token` header value.  The token is set iff the hit
count equals `page_size or config["maxpage"]`, and holds the encoded first
sort value of the last hit (`str` is the identity here because sort values
are modelled in string form). -/
def search_result (uuh : Option String → String) (maxpage : Int)
    (q : String) (resume : Option String) (expanded : Bool)
    (sort_field sort_order : Option String) (page_size : Option Int)
    (hits : List Hit) : Except PyErr (List FmtRow × Option String) :=
  match cs_paged_query q resume expanded sort_field sort_order page_size maxpage with
  | .error e => .error e
  | .ok _query =>
    if hits = [] then .error (.httpException 404 "No results found!")
    else
      match (if (hits.length : Int) = pyOrInt page_size maxpage then
               match hits.getLast? with
               | none => Except.error PyErr.indexError
               | some lastHit =>
                 match lastHit.sort.head? with
                 | none => Except.error PyErr.indexError
                 | some v => Except.ok (some (encode v))
             else Except.ok (none : Option String)) with
      | .error e => .error e
      | .ok resumeKey =>
        .ok (hits.map (fun h => format_match uuh h expanded), resumeKey)

/-- The backend response consumed by `api._get_terms`: the hits and the
`aggregations.sample.topterms.buckets` list. -/
structure TermsResponse where
  hits : List Hit
  topterms_buckets : List Bucket

/-- `api._get_terms`, from the backend response on: 404 when there are zero
hits or the term aggregation produced zero buckets, otherwise the formatted
term counts. -/
def get_terms (res : TermsResponse) : Except PyErr (List (String × Int)) :=
  if res.hits = [] ∨ res.topterms_buckets = [] then
    .error (.httpException 404 "No results found!")
  else .ok (format_counts res.topterms_buckets)

end Api

namespace Client

/-- `client.decode_key` (same body as `api.decode`). -/
def decode_key : String → Option String := Codec.b64StrDecode

/-- `client.encode_key` (same body as `api.encode`). -/
def encode_key : String → String := Codec.b64StrEncode

/-- `QueryBuilder.VALID_SORT_ORDERS`. -/
def VALID_SORT_ORDERS : List String := ["asc", "desc"]

/-- `QueryBuilder.VALID_SORT_FIELDS`. -/
def VALID_SORT_FIELDS : List String := ["publication_date", "indexed_date"]

/-- `QueryBuilder.Aggregators`: the enum of canned aggregation clauses. -/
inductive Aggregator where
  | DAILY_COUNTS
  | TOP_LANGS
  | TOP_DOMAINS
deriving DecidableEq

/-- `list(agg.value.keys())[0]`: the aggregation name under which each
`Aggregators` member files its buckets. -/
def Aggregator.aggName : Aggregator → String
  | .DAILY_COUNTS => "dailycounts"
  | .TOP_LANGS => "toplangs"
  | .TOP_DOMAINS => "topdomains"

/-- `QueryBuilder._validate_sort_order`. -/
def validate_sort_order (sort_order : Option String) : Except PyErr (Option String) :=
  if pyTruthyStr sort_order && !VALID_SORT_ORDERS.contains (sort_order.getD "") then
    .error (.httpException 400 "Invalid sort order (must be on of asc, desc)")
  else .ok sort_order

/-- `QueryBuilder._validate_sort_field`. -/
def validate_sort_field (sort_field : Option String) : Except PyErr (Option String) :=
  if pyTruthyStr sort_field && !VALID_SORT_FIELDS.contains (sort_field.getD "") then
    .error (.httpException 400 "Invalid sort field (must be on of publication_date, indexed_date)")
  else .ok sort_field

/-- `QueryBuilder._validate_page_size`. -/
def validate_page_size (page_size : Option Int) : Except PyErr (Option Int) :=
  if pyTruthyInt page_size && decide (page_size.getD 0 < 1) then
    .error (.httpException 400 "Invalid page size (must be greater than 0)")
  else .ok page_size

/-- `QueryBuilder.basic_query` (the `_source` list and expanded superset are
the same field lists as in `api.cs_basic_query`). -/
def basic_query (query_text : String) (expanded : Bool) : EsBody :=
  [("_source", .arr (((["article_title", "normalized_article_title",
      "publication_date", "indexed_date", "language", "full_language",
      "canonical_domain", "url", "normalized_url", "original_url"] : List String) ++
      (if expanded then ["text_content", "text_extraction"] else [])).map .s)),
   ("query", .obj [("query_string", .obj
      [("default_field", .s "text_content"),
       ("default_operator", .s "AND"),
       ("query", .s query_text)])])]

/-- `QueryBuilder.paged_query`.  Unlike `api.cs_paged_query`, the page-size
default is the literal `1000`. -/
def paged_query (query_text : String) (resume : Option String) (expanded : Bool)
    (sort_field sort_order : Option String) (page_size : Option Int) :
    Except PyErr EsBody :=
  match validate_sort_field (some (pyOrStr sort_field "publication_date")) with
  | .error e => .error e
  | .ok fsf =>
  match validate_sort_order (some (pyOrStr sort_order "desc")) with
  | .error e => .error e
  | .ok fso =>
  match validate_page_size (some (pyOrInt page_size 1000)) with
  | .error e => .error e
  | .ok sz =>
  let query := basic_query query_text expanded ++
    [("size", .n (sz.getD 0)),
     ("track_total_hits", .b false),
     ("sort", .obj [(fsf.getD "", .obj
        [("order", .s (fso.getD "")),
         ("format", .s "basic_date_time_no_millis")])])]
  if pyTruthyStr resume then
    match decode_key (resume.getD "") with
    | none => .error .binasciiError
    | some v => .ok (query ++ [("search_after", .arr [.s v])])
  else .ok query

/-- `EsClientWrapper.format_match`: identical body to `api.format_match`
(the `collection` parameter does not occur in the body and is omitted). -/
def format_match (uuh : Option String → String) (hit : Hit) (expanded : Bool) : FmtRow :=
  let src := hit.source
  ([("article_title", src.article_title),
    ("normalized_article_title", src.normalized_article_title),
    ("publication_date",
      if pyTruthyStr src.publication_date
      then some ((src.publication_date.getD "").take 10) else none),
    ("indexed_date", src.indexed_date),
    ("language", src.language),
    ("full_langauge", src.full_language),
    ("url", src.url),
    ("normalized_url", src.normalized_url),
    ("original_url", src.original_url),
    ("canonical_domain", src.canonical_domain),
    ("id", some (uuh src.url))] : FmtRow) ++
  (if expanded then
    [("text_content", src.text_content), ("text_extraction", src.text_extraction)]
   else [])

/-- `EsClientWrapper.format_day_counts`. -/
def format_day_counts (bucket : List Bucket) : List (String × Int) :=
  bucket.map (fun item => (item.key_as_string.take 10, item.doc_count))

/-- `EsClientWrapper.format_counts`. -/
def format_counts (bucket : List Bucket) : List (String × Int) :=
  bucket.map (fun item => (item.key, item.doc_count))

/-- A value of the `return_dict` built by `EsClientWrapper.aggregator_query`. -/
inductive RetVal where
  | str (v : String)
  | num (v : Int)
  | counts (m : List (String × Int))
  | «matches» (ms : List FmtRow)
deriving DecidableEq

/-- The backend response consumed by `EsClientWrapper.aggregator_query`:
hits, reported total, and the aggregations keyed by name. -/
structure ClientResponse where
  hits : List Hit
  total_value : Int
  aggregations : List (String × List Bucket)

/-- One step of the aggregation-formatting loop of
`EsClientWrapper.aggregator_query`: `res["aggregations"][agg_name]` raises
`KeyError` when absent; `dailycounts` buckets go through `format_day_counts`,
the others through `format_counts`. -/
def formatAgg (res : ClientResponse) (agg : Aggregator) :
    Except PyErr (String × RetVal) :=
  match res.aggregations.lookup agg.aggName with
  | none => .error (.keyError agg.aggName)
  | some buckets =>
    if agg.aggName = "dailycounts" then
      .ok (agg.aggName, .counts (format_day_counts buckets))
    else
      .ok (agg.aggName, .counts (format_counts buckets))

/-- The aggregation-formatting loop of `EsClientWrapper.aggregator_query`,
applying `formatAgg` to each requested aggregator in order and stopping at
the first error, as the Python `for` loop does. -/
def formatAggs (res : ClientResponse) : List Aggregator → Except PyErr (List (String × RetVal))
  | [] => .ok []
  | agg :: rest =>
    match formatAgg res agg with
    | .error e => .error e
    | .ok entry =>
      match formatAggs res rest with
      | .error e => .error e
      | .ok entries => .ok (entry :: entries)

/-- `EsClientWrapper.aggregator_query`, from the backend response on: 404 on
zero hits; formats each requested aggregation; when the `overview` option is
set it requires the `TOP_DOMAINS` aggregator (500 otherwise) and adds
`total = max(reported total, top-domains bucket sum)` and the formatted
sample matches. -/
def aggregator_query (uuh : Option String → String) (q : String)
    (aggs : List Aggregator) (overview : Bool) (res : ClientResponse) :
    Except PyErr (List (String × RetVal)) :=
  if res.hits = [] then .error (.httpException 404 "No results found!")
  else
    let total := res.total_value
    match formatAggs res aggs with
    | .error e => .error e
    | .ok entries =>
      let return_dict := [("query", RetVal.str q)] ++ entries
      if overview then
        if !aggs.contains .TOP_DOMAINS then
          .error (.httpException 500 "Can't run overview query without top_domains aggregator")
        else
          match res.aggregations.lookup "topdomains" with
          | none => .error (.keyError "topdomains")
          | some buckets =>
            let domain_sum := (buckets.map (fun item => item.doc_count)).sum
            .ok (return_dict ++
              [("total", .num (max total domain_sum)),
               ("matches", .«matches» (res.hits.map (fun h => format_match uuh h false)))])
      else .ok return_dict

/-- `EsClientWrapper.search_overview`: `aggregator_query` with the three
canned aggregators and the `overview` option. -/
def search_overview (uuh : Option String → String) (q : String)
    (res : ClientResponse) : Except PyErr (List (String × RetVal)) :=
  aggregator_query uuh q
    [.DAILY_COUNTS, .TOP_LANGS, .TOP_DOMAINS] true res

/-- `EsClientWrapper.search_result`.  `maxpage` is `client_config.maxpage`
(note the page-size default inside `paged_query` is the literal 1000, while
this resume-token guard uses `maxpage`).  Returns the formatted page and the
resume key. -/
def search_result (uuh : Option String → String) (maxpage : Int)
    (q : String) (resume : Option String) (expanded : Bool)
    (sort_field sort_order : Option String) (page_size : Option Int)
    (hits : List Hit) : Except PyErr (List FmtRow × Option String) :=
  match paged_query q resume expanded sort_field sort_order page_size with
  | .error e => .error e
  | .ok _query =>
    if hits = [] then .error (.httpException 404 "No results found!")
    else
      match (if (hits.length : Int) = pyOrInt page_size maxpage then
               match hits.getLast? with
               | none => Except.error PyErr.indexError
               | some lastHit =>
                 match lastHit.sort.head? with
                 | none => Except.error PyErr.indexError
                 | some v => Except.ok (some (encode_key v))
             else Except.ok (none : Option String)) with
      | .error e => .error e
      | .ok resume_key =>
        .ok (hits.map (fun h => format_match uuh h expanded), resume_key)

/-- `EsClientWrapper.get_terms`, from the backend response on: same 404
condition as `api._get_terms`. -/
def get_terms (res : Api.TermsResponse) : Except PyErr (List (String × Int)) :=
  if res.hits = [] ∨ res.topterms_buckets = [] then
    .error (.httpException 404 "No results found!")
  else .ok (format_counts res.topterms_buckets)

end Client

/-- The string form of the last hit's first sort value (the value the resume
cursor encodes), defaulting to `""` when absent. -/
def lastSortKey (hits : List Hit) : String :=
  (hits.getLast?.map (fun h => h.sort.head?.getD "")).getD ""

/-- Whether a result is a client-visible validation error (an
`HTTPException` with status 400). -/
def isValidationError {α : Type} : Except PyErr α → Bool
  | .error (.httpException status _) => status == 400
  | _ => false

/-- Stand-in for the external url hash in concrete examples. -/
def hashStub : Option String → String := fun _ => "h"

/-- A minimal hit fixture whose sort key is `"abc"`. -/
def hitA : Hit := { source := {}, sort := ["abc"] }

/-- A hit fixture with a publication date and url. -/
def hitP : Hit :=
  { source := { publication_date := some "2023-12-01T10:00:00",
                url := some "http://example.com/a" },
    sort := ["abc"] }

/-- A hit fixture whose publication date is present but empty: the source's
truthiness guard formats it as null rather than truncating it. -/
def hitE : Hit := { source := { publication_date := some "" }, sort := ["abc"] }

/-- The api paged-query body built with resume token `"YWJj"` and otherwise
default parameters. -/
def c3ApiBody : EsBody :=
  (Api.cs_paged_query "q" (some "YWJj") false none none none 1000).toOption.getD []

/-- The client paged-query body built with resume token `"YWJj"` and
otherwise default parameters. -/
def c3ClientBody : EsBody :=
  (Client.paged_query "q" (some "YWJj") false none none none).toOption.getD []

/-- The api paged-query body built with all-default parameters. -/
def c7Body : EsBody :=
  (Api.cs_paged_query "q" none false none none none 1000).toOption.getD []

/-- An overview backend response with no hits. -/
def ovEmpty : Api.OverviewResponse := { hits := [], total_value := 0 }

/-- A terms backend response with no hits but one aggregation bucket. -/
def trNoHits : Api.TermsResponse :=
  { hits := [], topterms_buckets := [{ key := "k", doc_count := 3 }] }

/-- A terms backend response with a hit but zero aggregation buckets. -/
def trNoBuckets : Api.TermsResponse := { hits := [hitA], topterms_buckets := [] }

/-- A client overview backend response whose top-domains bucket sum (1050)
exceeds the backend-reported total (1000), and which carries no TLD
aggregation at all. -/
def c8res : Client.ClientResponse :=
  { hits := [hitA], total_value := 1000,
    aggregations := [("dailycounts", []), ("toplangs", []),
      ("topdomains", [{ key := "example.com", doc_count := 1050 }])] }

/-- An api overview backend response whose TLD bucket sum (1050) exceeds the
backend-reported total (1000). -/
def ovFull : Api.OverviewResponse :=
  { hits := [hitA], total_value := 1000,
    tld_buckets := [{ key := "com", doc_count := 1050 }] }

/-- The api overview output on `ovFull`. -/
def c8ApiOut : Api.Overview :=
  (Api.search_overview hashStub "q" ovFull).toOption.getD
    { query := "", total := 0, topdomains := [], toptlds := [], toplangs := [],
      dailycounts := [], «matches» := [] }

/-- The client overview output on `c8res`. -/
def c8ClientOut : List (String × Client.RetVal) :=
  (Client.search_overview hashStub "q" c8res).toOption.getD []



namespace Codec

theorem charVal_valToChar : ∀ d : Nat, d < 64 → charVal (valToChar d) = some d := by decide

theorem valToChar_ne_pad : ∀ d : Nat, d < 64 → valToChar d ≠ '=' := by decide

theorem valToChar_ne_tilde : ∀ d : Nat, d < 64 → valToChar d ≠ '~' := by decide

theorem a2b_cons_data (d : Nat) (hd : d < 64) (rest : List Char)
    (q l p : Nat) (out : List Nat) :
    a2b (valToChar d :: rest) q l p out =
      match q with
      | 0 => a2b rest 1 d 0 out
      | 1 => a2b rest 2 (d % 16) 0 ((l * 4 + d / 16) :: out)
      | 2 => a2b rest 3 (d % 4) 0 ((l * 16 + d / 4) :: out)
      | _ => a2b rest 0 0 0 ((l * 64 + d) :: out) := by
  simp only [a2b, if_neg (valToChar_ne_pad d hd), charVal_valToChar d hd]

theorem a2b_step0 (d : Nat) (hd : d < 64) (rest : List Char) (l p : Nat) (out : List Nat) :
    a2b (valToChar d :: rest) 0 l p out = a2b rest 1 d 0 out := by
  rw [a2b_cons_data d hd]

theorem a2b_step1 (d : Nat) (hd : d < 64) (rest : List Char) (l p : Nat) (out : List Nat) :
    a2b (valToChar d :: rest) 1 l p out = a2b rest 2 (d % 16) 0 ((l * 4 + d / 16) :: out) := by
  rw [a2b_cons_data d hd]

theorem a2b_step2 (d : Nat) (hd : d < 64) (rest : List Char) (l p : Nat) (out : List Nat) :
    a2b (valToChar d :: rest) 2 l p out = a2b rest 3 (d % 4) 0 ((l * 16 + d / 4) :: out) := by
  rw [a2b_cons_data d hd]

theorem a2b_step3 (d : Nat) (hd : d < 64) (rest : List Char) (l p : Nat) (out : List Nat) :
    a2b (valToChar d :: rest) 3 l p out = a2b rest 0 0 0 ((l * 64 + d) :: out) := by
  rw [a2b_cons_data d hd]

theorem a2b_pad3 (rest : List Char) (l p : Nat) (out : List Nat) :
    a2b ('=' :: rest) 3 l p out = some out.reverse := by
  simp only [a2b, if_pos rfl]
  rw [if_pos (by omega : 2 ≤ 3), if_pos (by omega : 4 ≤ 3 + (p + 1))]
  simp

theorem a2b_pad2_first (rest : List Char) (l : Nat) (out : List Nat) :
    a2b ('=' :: rest) 2 l 0 out = a2b rest 2 l 1 out := by
  simp only [a2b, if_pos rfl]
  rw [if_pos (by omega : 2 ≤ 2), if_neg (by omega : ¬ 4 ≤ 2 + (0 + 1))]
  simp

theorem a2b_pad2_second (rest : List Char) (l : Nat) (out : List Nat) :
    a2b ('=' :: rest) 2 l 1 out = some out.reverse := by
  simp only [a2b, if_pos rfl]
  rw [if_pos (by omega : 2 ≤ 2), if_pos (by omega : 4 ≤ 2 + (1 + 1))]
  simp

theorem a2b_b64encode : ∀ (s : List Nat), (∀ x ∈ s, x < 256) →
    ∀ out : List Nat, a2b (b64encode s) 0 0 0 out = some (out.reverse ++ s) := by
  intro s
  induction s using b64encode.induct with
  | case1 =>
    intro _ out
    simp [b64encode, a2b]
  | case2 a =>
    intro h out
    have ha : a < 256 := h a (by simp)
    rw [b64encode, a2b_step0 _ (by omega), a2b_step1 _ (by omega),
      (by omega : a / 4 * 4 + a % 4 * 16 / 16 = a), a2b_pad2_first, a2b_pad2_second]
    simp
  | case3 a b =>
    intro h out
    have ha : a < 256 := h a (by simp)
    have hb : b < 256 := h b (by simp)
    rw [b64encode, a2b_step0 _ (by omega), a2b_step1 _ (by omega),
      (by omega : a / 4 * 4 + (a % 4 * 16 + b / 16) / 16 = a),
      a2b_step2 _ (by omega),
      (by omega : (a % 4 * 16 + b / 16) % 16 * 16 + b % 16 * 4 / 4 = b),
      a2b_pad3]
    simp
  | case4 a b c rest ih =>
    intro h out
    have ha : a < 256 := h a (by simp)
    have hb : b < 256 := h b (by simp)
    have hc : c < 256 := h c (by simp)
    rw [b64encode, a2b_step0 _ (by omega), a2b_step1 _ (by omega),
      (by omega : a / 4 * 4 + (a % 4 * 16 + b / 16) / 16 = a),
      a2b_step2 _ (by omega),
      (by omega : (a % 4 * 16 + b / 16) % 16 * 16 + (b % 16 * 4 + c / 64) / 4 = b),
      a2b_step3 _ (by omega),
      (by omega : (b % 16 * 4 + c / 64) % 4 * 64 + c % 64 = c),
      ih (fun x hx => h x (by simp [hx])) (c :: b :: a :: out)]
    simp

theorem utf8Decode_cons (b0 : Nat) (rest : List Nat) :
    utf8Decode (b0 :: rest) =
      if b0 < 0x80 then (utf8Decode rest).map (fun cs => Char.ofNat b0 :: cs)
      else if b0 < 0xC2 then none
      else if b0 < 0xE0 then utf8DecTail2 b0 rest
      else if b0 < 0xF0 then utf8DecTail3 b0 rest
      else if b0 < 0xF5 then utf8DecTail4 b0 rest
      else none := by
  rw [utf8Decode]

theorem utf8DecTail2_eq (b0 b1 : Nat) (rest : List Nat) (hc : isCont b1) :
    utf8DecTail2 b0 (b1 :: rest) =
      (utf8Decode rest).map (fun cs => Char.ofNat ((b0 - 0xC0) * 64 + (b1 - 0x80)) :: cs) := by
  rw [utf8DecTail2, if_pos hc]

theorem utf8DecTail3_eq (b0 b1 b2 : Nat) (rest : List Nat) (hc : isCont b1 ∧ isCont b2)
    (hr : 0x800 ≤ (b0 - 0xE0) * 4096 + (b1 - 0x80) * 64 + (b2 - 0x80) ∧
      ¬(0xD800 ≤ (b0 - 0xE0) * 4096 + (b1 - 0x80) * 64 + (b2 - 0x80) ∧
        (b0 - 0xE0) * 4096 + (b1 - 0x80) * 64 + (b2 - 0x80) < 0xE000)) :
    utf8DecTail3 b0 (b1 :: b2 :: rest) =
      (utf8Decode rest).map
        (fun cs => Char.ofNat ((b0 - 0xE0) * 4096 + (b1 - 0x80) * 64 + (b2 - 0x80)) :: cs) := by
  rw [utf8DecTail3, if_pos hc, if_pos hr]

theorem utf8DecTail4_eq (b0 b1 b2 b3 : Nat) (rest : List Nat)
    (hc : isCont b1 ∧ isCont b2 ∧ isCont b3)
    (hr : 0x10000 ≤ (b0 - 0xF0) * 262144 + (b1 - 0x80) * 4096 + (b2 - 0x80) * 64 + (b3 - 0x80) ∧
      (b0 - 0xF0) * 262144 + (b1 - 0x80) * 4096 + (b2 - 0x80) * 64 + (b3 - 0x80) < 0x110000) :
    utf8DecTail4 b0 (b1 :: b2 :: b3 :: rest) =
      (utf8Decode rest).map
        (fun cs => Char.ofNat
          ((b0 - 0xF0) * 262144 + (b1 - 0x80) * 4096 + (b2 - 0x80) * 64 + (b3 - 0x80)) :: cs) := by
  rw [utf8DecTail4, if_pos hc, if_pos hr]

theorem utf8Decode_one (n : Nat) (h : n < 0x80) (rest : List Nat) :
    utf8Decode (n :: rest) = (utf8Decode rest).map (fun cs => Char.ofNat n :: cs) := by
  rw [utf8Decode_cons, if_pos h]

theorem utf8Decode_two (n : Nat) (h1 : 0x80 ≤ n) (h2 : n < 0x800) (rest : List Nat) :
    utf8Decode ((0xC0 + n / 64) :: (0x80 + n % 64) :: rest) =
      (utf8Decode rest).map (fun cs => Char.ofNat n :: cs) := by
  rw [utf8Decode_cons, if_neg (by omega), if_neg (by omega), if_pos (by omega),
    utf8DecTail2_eq _ _ _ (by omega),
    (by omega : (0xC0 + n / 64 - 0xC0) * 64 + (0x80 + n % 64 - 0x80) = n)]

theorem utf8Decode_three (n : Nat) (h1 : 0x800 ≤ n) (h2 : n < 0x10000)
    (h3 : ¬(0xD800 ≤ n ∧ n < 0xE000)) (rest : List Nat) :
    utf8Decode ((0xE0 + n / 4096) :: (0x80 + n / 64 % 64) :: (0x80 + n % 64) :: rest) =
      (utf8Decode rest).map (fun cs => Char.ofNat n :: cs) := by
  rw [utf8Decode_cons, if_neg (by omega), if_neg (by omega), if_neg (by omega),
    if_pos (by omega), utf8DecTail3_eq _ _ _ _ (by omega) (by constructor <;> omega),
    (by omega : (0xE0 + n / 4096 - 0xE0) * 4096 + (0x80 + n / 64 % 64 - 0x80) * 64 +
      (0x80 + n % 64 - 0x80) = n)]

theorem utf8Decode_four (n : Nat) (h1 : 0x10000 ≤ n) (h2 : n < 0x110000) (rest : List Nat) :
    utf8Decode ((0xF0 + n / 262144) :: (0x80 + n / 4096 % 64) :: (0x80 + n / 64 % 64) ::
      (0x80 + n % 64) :: rest) = (utf8Decode rest).map (fun cs => Char.ofNat n :: cs) := by
  rw [utf8Decode_cons, if_neg (by omega), if_neg (by omega), if_neg (by omega),
    if_neg (by omega), if_pos (by omega),
    utf8DecTail4_eq _ _ _ _ _ (by omega) (by constructor <;> omega),
    (by omega : (0xF0 + n / 262144 - 0xF0) * 262144 + (0x80 + n / 4096 % 64 - 0x80) * 4096 +
      (0x80 + n / 64 % 64 - 0x80) * 64 + (0x80 + n % 64 - 0x80) = n)]

theorem utf8Decode_utf8Encode : ∀ cs : List Char, utf8Decode (utf8Encode cs) = some cs := by
  intro cs
  induction cs with
  | nil => simp [utf8Encode, utf8Decode]
  | cons c cs ih =>
    have hv : c.toNat < 0xD800 ∨ (0xDFFF < c.toNat ∧ c.toNat < 0x110000) := c.valid
    rw [utf8Encode, utf8EncodeChar]
    by_cases h1 : c.toNat < 0x80
    · rw [if_pos h1]
      simp only [List.cons_append, List.nil_append]
      rw [utf8Decode_one _ h1, ih]
      simp
    · rw [if_neg h1]
      by_cases h2 : c.toNat < 0x800
      · rw [if_pos h2]
        simp only [List.cons_append, List.nil_append]
        rw [utf8Decode_two _ (by omega) h2, ih]
        simp
      · rw [if_neg h2]
        by_cases h3 : c.toNat < 0x10000
        · rw [if_pos h3]
          simp only [List.cons_append, List.nil_append]
          rw [utf8Decode_three _ (by omega) h3 (by omega), ih]
          simp
        · rw [if_neg h3]
          simp only [List.cons_append, List.nil_append]
          rw [utf8Decode_four _ (by omega) (by omega), ih]
          simp

theorem utf8Encode_lt : ∀ cs : List Char, ∀ b ∈ utf8Encode cs, b < 256 := by
  intro cs
  induction cs with
  | nil => simp [utf8Encode]
  | cons c cs ih =>
    have hv : c.toNat < 0xD800 ∨ (0xDFFF < c.toNat ∧ c.toNat < 0x110000) := c.valid
    intro b hb
    rw [utf8Encode] at hb
    rcases List.mem_append.mp hb with h | h
    · rw [utf8EncodeChar] at h
      split at h
      · simp_all; omega
      · split at h
        · simp_all; omega
        · split at h
          · simp_all; omega
          · simp_all; omega
    · exact ih b h

theorem b64encode_mem : ∀ (s : List Nat), (∀ x ∈ s, x < 256) →
    ∀ c ∈ b64encode s, c = '=' ∨ ∃ d, d < 64 ∧ c = valToChar d := by
  intro s
  induction s using b64encode.induct with
  | case1 => intro _ c hc; simp [b64encode] at hc
  | case2 a =>
    intro h c hc
    have ha : a < 256 := h a (by simp)
    rw [b64encode] at hc
    simp only [List.mem_cons, List.not_mem_nil, or_false] at hc
    rcases hc with hc | hc | hc | hc
    · exact Or.inr ⟨a / 4, by omega, hc⟩
    · exact Or.inr ⟨a % 4 * 16, by omega, hc⟩
    · exact Or.inl hc
    · exact Or.inl hc
  | case3 a b =>
    intro h c hc
    have ha : a < 256 := h a (by simp)
    have hb : b < 256 := h b (by simp)
    rw [b64encode] at hc
    simp only [List.mem_cons, List.not_mem_nil, or_false] at hc
    rcases hc with hc | hc | hc | hc
    · exact Or.inr ⟨a / 4, by omega, hc⟩
    · exact Or.inr ⟨a % 4 * 16 + b / 16, by omega, hc⟩
    · exact Or.inr ⟨b % 16 * 4, by omega, hc⟩
    · exact Or.inl hc
  | case4 a b c rest ih =>
    intro h x hx
    have ha : a < 256 := h a (by simp)
    have hb : b < 256 := h b (by simp)
    have hc : c < 256 := h c (by simp)
    rw [b64encode] at hx
    simp only [List.mem_cons] at hx
    rcases hx with hx | hx | hx | hx | hx
    · exact Or.inr ⟨a / 4, by omega, hx⟩
    · exact Or.inr ⟨a % 4 * 16 + b / 16, by omega, hx⟩
    · exact Or.inr ⟨b % 16 * 4 + c / 64, by omega, hx⟩
    · exact Or.inr ⟨c % 64, by omega, hx⟩
    · exact ih (fun y hy => h y (by simp [hy])) x hx

theorem b64Str_roundtrip (s : String) : b64StrDecode (b64StrEncode s) = some s := by
  have hbytes : ∀ x ∈ utf8Encode s.data, x < 256 := utf8Encode_lt s.data
  have hmap : ((b64encode (utf8Encode s.data)).map (fun c => if c = '=' then '~' else c)).map
      (fun c => if c = '~' then '=' else c) = b64encode (utf8Encode s.data) := by
    rw [List.map_map]
    have : ∀ c ∈ b64encode (utf8Encode s.data),
        ((fun c => if c = '~' then '=' else c) ∘ fun c => if c = '=' then '~' else c) c = c := by
      intro c hc
      rcases b64encode_mem _ hbytes c hc with h | ⟨d, hd, h⟩
      · subst h; simp
      · subst h
        have h1 := valToChar_ne_pad d hd
        have h2 := valToChar_ne_tilde d hd
        simp [h1, h2]
    rw [List.map_congr_left this]
    simp
  show (a2b ((String.mk ((b64encode (utf8Encode s.data)).map
      (fun c => if c = '=' then '~' else c))).data.map
      (fun c => if c = '~' then '=' else c)) 0 0 0 []).bind
      (fun bytes => (utf8Decode bytes).map String.mk) = some s
  rw [show (String.mk ((b64encode (utf8Encode s.data)).map
      (fun c => if c = '=' then '~' else c))).data =
      (b64encode (utf8Encode s.data)).map (fun c => if c = '=' then '~' else c) from rfl]
  rw [hmap, a2b_b64encode _ hbytes []]
  simp only [List.reverse_nil, List.nil_append, Option.bind_some, Option.some_bind]
  rw [utf8Decode_utf8Encode]
  cases s
  rfl

end Codec

/-! Helper lemmas about the Python-truthiness helpers and the validators. -/

theorem pyOrStr_none (d : String) : pyOrStr none d = d := rfl

theorem pyOrStr_some {s : String} (hs : s ≠ "") (d : String) : pyOrStr (some s) d = s := by
  simp [pyOrStr, pyTruthyStr, hs]

theorem pyOrInt_some {p : Int} (hp : p ≠ 0) (d : Int) : pyOrInt (some p) d = p := by
  simp [pyOrInt, pyTruthyInt, hp]

theorem api_validate_sort_field_cases (x : Option String) :
    Api.validate_sort_field x = .ok x ∨
    Api.validate_sort_field x =
      .error (.httpException 400 "Invalid sort field (must be on of publication_date, indexed_date)") := by
  unfold Api.validate_sort_field
  split
  · exact Or.inr rfl
  · exact Or.inl rfl

theorem api_validate_sort_order_cases (x : Option String) :
    Api.validate_sort_order x = .ok x ∨
    Api.validate_sort_order x =
      .error (.httpException 400 "Invalid sort order (must be on of asc, desc)") := by
  unfold Api.validate_sort_order
  split
  · exact Or.inr rfl
  · exact Or.inl rfl

theorem api_validate_page_size_cases (x : Option Int) :
    Api.validate_page_size x = .ok x ∨
    Api.validate_page_size x =
      .error (.httpException 400 "Invalid page size (must be greater than 0)") := by
  unfold Api.validate_page_size
  split
  · exact Or.inr rfl
  · exact Or.inl rfl

theorem client_validate_sort_field_cases (x : Option String) :
    Client.validate_sort_field x = .ok x ∨
    Client.validate_sort_field x =
      .error (.httpException 400 "Invalid sort field (must be on of publication_date, indexed_date)") := by
  unfold Client.validate_sort_field
  split
  · exact Or.inr rfl
  · exact Or.inl rfl

theorem client_validate_sort_order_cases (x : Option String) :
    Client.validate_sort_order x = .ok x ∨
    Client.validate_sort_order x =
      .error (.httpException 400 "Invalid sort order (must be on of asc, desc)") := by
  unfold Client.validate_sort_order
  split
  · exact Or.inr rfl
  · exact Or.inl rfl

theorem client_validate_page_size_cases (x : Option Int) :
    Client.validate_page_size x = .ok x ∨
    Client.validate_page_size x =
      .error (.httpException 400 "Invalid page size (must be greater than 0)") := by
  unfold Client.validate_page_size
  split
  · exact Or.inr rfl
  · exact Or.inl rfl

theorem api_validate_sort_field_ok {x y : Option String}
    (h : Api.validate_sort_field x = .ok y) : y = x := by
  unfold Api.validate_sort_field at h
  split at h <;> simp_all

theorem api_validate_sort_order_ok {x y : Option String}
    (h : Api.validate_sort_order x = .ok y) : y = x := by
  unfold Api.validate_sort_order at h
  split at h <;> simp_all

theorem api_validate_page_size_ok {x y : Option Int}
    (h : Api.validate_page_size x = .ok y) : y = x := by
  unfold Api.validate_page_size at h
  split at h <;> simp_all

theorem client_validate_sort_field_ok {x y : Option String}
    (h : Client.validate_sort_field x = .ok y) : y = x := by
  unfold Client.validate_sort_field at h
  split at h <;> simp_all

theorem client_validate_sort_order_ok {x y : Option String}
    (h : Client.validate_sort_order x = .ok y) : y = x := by
  unfold Client.validate_sort_order at h
  split at h <;> simp_all

theorem client_validate_page_size_ok {x y : Option Int}
    (h : Client.validate_page_size x = .ok y) : y = x := by
  unfold Client.validate_page_size at h
  split at h <;> simp_all

theorem api_validate_page_size_neg {p : Int} (hp : p < 0) :
    Api.validate_page_size (some p) =
      .error (.httpException 400 "Invalid page size (must be greater than 0)") := by
  unfold Api.validate_page_size
  rw [if_pos]
  simp [pyTruthyInt]
  omega

theorem client_validate_page_size_neg {p : Int} (hp : p < 0) :
    Client.validate_page_size (some p) =
      .error (.httpException 400 "Invalid page size (must be greater than 0)") := by
  unfold Client.validate_page_size
  rw [if_pos]
  simp [pyTruthyInt]
  omega

theorem api_search_result_error {e : PyErr} (uuh : Option String → String)
    (maxpage : Int) (q : String) (resume : Option String) (expanded : Bool)
    (sf so : Option String) (ps : Option Int) (hits : List Hit)
    (h : Api.cs_paged_query q resume expanded sf so ps maxpage = .error e) :
    Api.search_result uuh maxpage q resume expanded sf so ps hits = .error e := by
  unfold Api.search_result
  rw [h]

theorem client_search_result_error {e : PyErr} (uuh : Option String → String)
    (maxpage : Int) (q : String) (resume : Option String) (expanded : Bool)
    (sf so : Option String) (ps : Option Int) (hits : List Hit)
    (h : Client.paged_query q resume expanded sf so ps = .error e) :
    Client.search_result uuh maxpage q resume expanded sf so ps hits = .error e := by
  unfold Client.search_result
  rw [h]

/-- C2: for every string s, decoding the encoded cursor token returns s, for
both the api-module codec and the client-module codec. -/
theorem claim_c2 (s : String) :
    Api.decode (Api.encode s) = some s ∧
    Client.decode_key (Client.encode_key s) = some s :=
  ⟨Codec.b64Str_roundtrip s, Codec.b64Str_roundtrip s⟩

/-- C10: every formatted result exposes the source full_language value under
the misspelled key "full_langauge" and contains no key "full_language", in
both modules. -/
theorem claim_c10 (uuh : Option String → String) (hit : Hit) (expanded : Bool) :
    (Api.format_match uuh hit expanded).lookup "full_langauge" = some hit.source.full_language ∧
    "full_language" ∉ (Api.format_match uuh hit expanded).map Prod.fst ∧
    (Client.format_match uuh hit expanded).lookup "full_langauge" = some hit.source.full_language ∧
    "full_language" ∉ (Client.format_match uuh hit expanded).map Prod.fst := by
  unfold Api.format_match Client.format_match
  cases expanded <;> simp [List.lookup]

/-- C4 counterexample: the token "YWJj!" contains '!', outside the URL-safe
base64 alphabet plus '~', yet cursor decode succeeds with "abc" in both
modules. -/
theorem claim_c4_counterexample :
    '!' ∈ ("YWJj!" : String).data ∧ Codec.charVal '!' = none ∧ '!' ≠ '~' ∧
    Api.decode "YWJj!" = some "abc" ∧ Client.decode_key "YWJj!" = some "abc" :=
  ⟨by decide, rfl, by decide, rfl, rfl⟩

/-- C5 counterexample: a listing call with supplied page_size = 0 succeeds
(the zero is treated as unspecified), instead of failing with a
ValidationError. -/
theorem claim_c5_counterexample :
    (Api.search_result hashStub 1000 "q" none false none none (some 0) [hitA]).toOption.isSome = true ∧
    (Client.search_result hashStub 1000 "q" none false none none (some 0) [hitA]).toOption.isSome = true ∧
    isValidationError (Api.search_result hashStub 1000 "q" none false none none (some 0) [hitA]) = false ∧
    isValidationError (Client.search_result hashStub 1000 "q" none false none none (some 0) [hitA]) = false :=
  ⟨rfl, rfl, rfl, rfl⟩

/-- C6 counterexample: the empty string is outside both validated
vocabularies, yet a listing call supplying sort_order = "" and
sort_field = "" succeeds (empty strings are treated as unspecified). -/
theorem claim_c6_counterexample :
    ("" ∉ Api.VALID_SORT_ORDERS) ∧ ("" ∉ Api.VALID_SORT_FIELDS) ∧
    (Api.search_result hashStub 1000 "q" none false (some "") (some "") none [hitA]).toOption.isSome = true ∧
    (Client.search_result hashStub 1000 "q" none false (some "") (some "") none [hitA]).toOption.isSome = true :=
  ⟨by decide, by decide, rfl, rfl⟩

/-- C1 counterexample: with configured default 2 and supplied page_size = 0,
a two-hit response carries a resume cursor although the hit count (2) differs
from the caller's page_size (0): the claimed iff fails at page_size = 0. -/
theorem claim_c1_counterexample :
    (Api.search_result hashStub 2 "q" none false none none (some 0) [hitA, hitA]).map
      (fun r => r.2.isSome) = .ok true ∧
    (([hitA, hitA].length : Int) ≠ (some (0 : Int)).getD 2) :=
  ⟨rfl, by decide⟩

/-- C8 counterexample: the client overview reports total 1050 (the
top-domains bucket sum) for a response whose backend total is 1000 and which
has no TLD aggregation, so the claimed max(total, TLD-bucket sum) = 1000 does
not match. -/
theorem claim_c8_counterexample :
    (Client.search_overview hashStub "q" c8res).map (fun rd => rd.lookup "total") =
      .ok (some (.num 1050)) ∧
    c8res.aggregations.lookup "tld" = none ∧
    c8res.total_value = 1000 ∧
    (1050 : Int) ≠ max 1000 0 :=
  ⟨rfl, rfl, rfl, by decide⟩

theorem api_format_match_lookup_id (uuh : Option String → String) (hit : Hit) (expanded : Bool) :
    (Api.format_match uuh hit expanded).lookup "id" = some (some (uuh hit.source.url)) := by
  unfold Api.format_match
  cases expanded <;> simp [List.lookup]

theorem client_format_match_lookup_id (uuh : Option String → String) (hit : Hit) (expanded : Bool) :
    (Client.format_match uuh hit expanded).lookup "id" = some (some (uuh hit.source.url)) := by
  unfold Client.format_match
  cases expanded <;> simp [List.lookup]

theorem api_format_match_lookup_pubdate (uuh : Option String → String) (hit : Hit)
    (expanded : Bool) :
    (Api.format_match uuh hit expanded).lookup "publication_date" =
      some (if pyTruthyStr hit.source.publication_date
            then some ((hit.source.publication_date.getD "").take 10) else none) := by
  unfold Api.format_match
  cases expanded <;> simp [List.lookup]

theorem client_format_match_lookup_pubdate (uuh : Option String → String) (hit : Hit)
    (expanded : Bool) :
    (Client.format_match uuh hit expanded).lookup "publication_date" =
      some (if pyTruthyStr hit.source.publication_date
            then some ((hit.source.publication_date.getD "").take 10) else none) := by
  unfold Client.format_match
  cases expanded <;> simp [List.lookup]

/-- C9 counterexample: for a raw hit whose source publication_date is the
(present) empty string, both modules format publication_date as null, not as
the first 10 characters of the empty string (which is the empty string): the
claim as stated fails at this hit. -/
theorem claim_c9_counterexample :
    hitE.source.publication_date = some "" ∧
    (Api.format_match hashStub hitE false).lookup "publication_date" = some none ∧
    (Client.format_match hashStub hitE false).lookup "publication_date" = some none ∧
    (none : Option String) ≠ some (("" : String).take 10) :=
  ⟨rfl, rfl, rfl, by decide⟩

/-- C9 (amended): for every raw hit, the formatted publication_date is the
first 10 characters of the source publication_date when that value is present
and non-empty, and null when it is absent or empty; unconditionally, `id` is
the single url hash function applied to the hit's url (so hits with equal
urls get equal ids) and the text_content / text_extraction keys are present
iff the expanded flag is set; in both modules. -/
theorem claim_c9 (uuh : Option String → String) (hit : Hit) (expanded : Bool) :
    (∀ s, hit.source.publication_date = some s → s ≠ "" →
      (Api.format_match uuh hit expanded).lookup "publication_date" = some (some (s.take 10)) ∧
      (Client.format_match uuh hit expanded).lookup "publication_date" = some (some (s.take 10))) ∧
    ((hit.source.publication_date = none ∨ hit.source.publication_date = some "") →
      (Api.format_match uuh hit expanded).lookup "publication_date" = some none ∧
      (Client.format_match uuh hit expanded).lookup "publication_date" = some none) ∧
    (Api.format_match uuh hit expanded).lookup "id" = some (some (uuh hit.source.url)) ∧
    (Client.format_match uuh hit expanded).lookup "id" = some (some (uuh hit.source.url)) ∧
    (("text_content" ∈ (Api.format_match uuh hit expanded).map Prod.fst ∧
      "text_extraction" ∈ (Api.format_match uuh hit expanded).map Prod.fst) ↔ expanded = true) ∧
    (("text_content" ∈ (Client.format_match uuh hit expanded).map Prod.fst ∧
      "text_extraction" ∈ (Client.format_match uuh hit expanded).map Prod.fst) ↔ expanded = true) ∧
    (∀ hit2 e2, hit2.source.url = hit.source.url →
      (Api.format_match uuh hit2 e2).lookup "id" = (Api.format_match uuh hit expanded).lookup "id") ∧
    (∀ hit2 e2, hit2.source.url = hit.source.url →
      (Client.format_match uuh hit2 e2).lookup "id" = (Client.format_match uuh hit expanded).lookup "id") := by
  refine ⟨?_, ?_, api_format_match_lookup_id uuh hit expanded,
    client_format_match_lookup_id uuh hit expanded, ?_, ?_, ?_, ?_⟩
  · intro s hp hs
    rw [api_format_match_lookup_pubdate, client_format_match_lookup_pubdate, hp]
    simp [pyTruthyStr, hs]
  · intro hp
    rw [api_format_match_lookup_pubdate, client_format_match_lookup_pubdate]
    rcases hp with hp | hp <;> rw [hp] <;> simp [pyTruthyStr]
  · unfold Api.format_match
    cases expanded <;> simp
  · unfold Client.format_match
    cases expanded <;> simp
  · intro hit2 e2 hurl
    rw [api_format_match_lookup_id, api_format_match_lookup_id, hurl]
  · intro hit2 e2 hurl
    rw [client_format_match_lookup_id, client_format_match_lookup_id, hurl]

/-- C9 witness: the hypotheses of `claim_c9` discharged at concrete hits —
one with the nonempty date "2023-12-01T10:00:00" (truncated to 10
characters) and one with an empty date (formatted as null) — and the
unconditional conclusions evaluated at them. -/
theorem claim_c9_witness :
    (Api.format_match hashStub hitP true).lookup "publication_date" =
      some (some ("2023-12-01T10:00:00".take 10)) ∧
    (Api.format_match hashStub hitE false).lookup "publication_date" = some none ∧
    (Api.format_match hashStub hitP true).lookup "id" = some (some (hashStub hitP.source.url)) ∧
    "text_content" ∈ (Api.format_match hashStub hitP true).map Prod.fst ∧
    (Api.format_match hashStub hitP false).lookup "id" =
      (Api.format_match hashStub hitP true).lookup "id" := by
  have h := claim_c9 hashStub hitP true
  have he := claim_c9 hashStub hitE false
  exact ⟨(h.1 "2023-12-01T10:00:00" rfl (by decide)).1, (he.2.1 (Or.inr rfl)).1,
    h.2.2.1, (h.2.2.2.2.1.mpr rfl).1, h.2.2.2.2.2.2.1 hitP false rfl⟩

/-- C7: on an empty-hits backend response the api overview, listing and
terms operations all fail with the 404 NotFound error, and the terms
operation also fails with 404 when the aggregation produced zero buckets
even with hits present. -/
theorem claim_c7 (uuh : Option String → String) (q : String) (resA : Api.OverviewResponse)
    (maxpage : Int) (resume : Option String) (expanded : Bool) (sf so : Option String)
    (ps : Option Int) (body : EsBody) (tres1 tres2 : Api.TermsResponse) :
    (resA.hits = [] →
      Api.search_overview uuh q resA = .error (.httpException 404 "No results found!")) ∧
    (Api.cs_paged_query q resume expanded sf so ps maxpage = .ok body →
      Api.search_result uuh maxpage q resume expanded sf so ps [] =
        .error (.httpException 404 "No results found!")) ∧
    (tres1.hits = [] →
      Api.get_terms tres1 = .error (.httpException 404 "No results found!")) ∧
    (tres2.topterms_buckets = [] →
      Api.get_terms tres2 = .error (.httpException 404 "No results found!")) := by
  refine ⟨?_, ?_, ?_, ?_⟩
  · intro h
    unfold Api.search_overview
    rw [if_pos h]
  · intro hq
    unfold Api.search_result
    rw [hq]
    simp
  · intro h
    unfold Api.get_terms
    rw [if_pos (Or.inl h)]
  · intro h
    unfold Api.get_terms
    rw [if_pos (Or.inr h)]

/-- C7 witness: the 404 behaviors at concrete empty responses. -/
theorem claim_c7_witness :
    Api.search_overview hashStub "q" ovEmpty = .error (.httpException 404 "No results found!") ∧
    Api.search_result hashStub 1000 "q" none false none none none [] =
      .error (.httpException 404 "No results found!") ∧
    Api.get_terms trNoHits = .error (.httpException 404 "No results found!") ∧
    Api.get_terms trNoBuckets = .error (.httpException 404 "No results found!") := by
  have h := claim_c7 hashStub "q" ovEmpty 1000 none false none none none c7Body trNoHits trNoBuckets
  exact ⟨h.1 rfl, h.2.1 rfl, h.2.2.1 rfl, h.2.2.2 rfl⟩

/-- C1 (amended): whenever a listing call returns a page, the resume cursor
is present iff the hit count equals `page_size or default` in the Python
sense (a supplied page_size of 0 counts as unspecified), and then it is the
codec encoding of the string form of the last hit's first sort value; in
both modules. -/
theorem claim_c1 (uuh : Option String → String) (maxpage : Int) (q : String)
    (resume : Option String) (expanded : Bool) (sf so : Option String)
    (ps : Option Int) (hits : List Hit) :
    (∀ ms cur, Api.search_result uuh maxpage q resume expanded sf so ps hits = .ok (ms, cur) →
      cur = if (hits.length : Int) = pyOrInt ps maxpage
            then some (Api.encode (lastSortKey hits)) else none) ∧
    (∀ ms cur, Client.search_result uuh maxpage q resume expanded sf so ps hits = .ok (ms, cur) →
      cur = if (hits.length : Int) = pyOrInt ps maxpage
            then some (Client.encode_key (lastSortKey hits)) else none) := by
  constructor
  · intro ms cur h
    unfold Api.search_result at h
    cases hq : Api.cs_paged_query q resume expanded sf so ps maxpage with
    | error e => rw [hq] at h; simp at h
    | ok body =>
      rw [hq] at h
      by_cases hh : hits = []
      · rw [if_pos hh] at h; simp at h
      · rw [if_neg hh] at h
        by_cases hlen : (hits.length : Int) = pyOrInt ps maxpage
        · rw [if_pos hlen] at h
          cases hlast : hits.getLast? with
          | none => simp only [hlast] at h; simp at h
          | some lastHit =>
            cases hsort : lastHit.sort.head? with
            | none => simp only [hlast, hsort] at h; simp at h
            | some v =>
              simp only [hlast, hsort, Except.ok.injEq, Prod.mk.injEq] at h
              rw [if_pos hlen]
              have hk : lastSortKey hits = v := by
                unfold lastSortKey
                rw [hlast]
                simp [hsort]
              rw [hk]
              exact h.2.symm
        · rw [if_neg hlen] at h
          simp only [Except.ok.injEq, Prod.mk.injEq] at h
          rw [if_neg hlen]
          exact h.2.symm
  · intro ms cur h
    unfold Client.search_result at h
    cases hq : Client.paged_query q resume expanded sf so ps with
    | error e => rw [hq] at h; simp at h
    | ok body =>
      rw [hq] at h
      by_cases hh : hits = []
      · rw [if_pos hh] at h; simp at h
      · rw [if_neg hh] at h
        by_cases hlen : (hits.length : Int) = pyOrInt ps maxpage
        · rw [if_pos hlen] at h
          cases hlast : hits.getLast? with
          | none => simp only [hlast] at h; simp at h
          | some lastHit =>
            cases hsort : lastHit.sort.head? with
            | none => simp only [hlast, hsort] at h; simp at h
            | some v =>
              simp only [hlast, hsort, Except.ok.injEq, Prod.mk.injEq] at h
              rw [if_pos hlen]
              have hk : lastSortKey hits = v := by
                unfold lastSortKey
                rw [hlast]
                simp [hsort]
              rw [hk]
              exact h.2.symm
        · rw [if_neg hlen] at h
          simp only [Except.ok.injEq, Prod.mk.injEq] at h
          rw [if_neg hlen]
          exact h.2.symm

/-- C1 witness: at a two-hit response with default-2 page size the theorem
instantiates to a present cursor equal to the encoded last sort value. -/
theorem claim_c1_witness :
    (some (Api.encode "abc") : Option String) =
      (if (([hitA, hitA].length : Nat) : Int) = pyOrInt none 2
       then some (Api.encode (lastSortKey [hitA, hitA])) else none) :=
  (claim_c1 hashStub 2 "q" none false none none none [hitA, hitA]).1
    ([hitA, hitA].map (fun h => Api.format_match hashStub h false))
    (some (Api.encode "abc")) rfl

theorem isValidationError_cast {α β : Type} {e : PyErr}
    (h : isValidationError (Except.error e : Except PyErr α) = true) :
    isValidationError (Except.error e : Except PyErr β) = true := by
  cases e <;> simp_all [isValidationError]

theorem api_cs_paged_query_neg (q : String) (resume : Option String) (expanded : Bool)
    (sf so : Option String) (maxpage : Int) {p : Int} (hp : p < 0) :
    isValidationError (Api.cs_paged_query q resume expanded sf so (some p) maxpage) = true := by
  unfold Api.cs_paged_query
  rcases api_validate_sort_field_cases (some (pyOrStr sf "publication_date")) with hf | hf <;>
    simp only [hf]
  · rcases api_validate_sort_order_cases (some (pyOrStr so "desc")) with ho | ho <;>
      simp only [ho]
    · rw [pyOrInt_some (by omega : p ≠ 0), api_validate_page_size_neg hp]
      rfl
    · rfl
  · rfl

theorem client_paged_query_neg (q : String) (resume : Option String) (expanded : Bool)
    (sf so : Option String) {p : Int} (hp : p < 0) :
    isValidationError (Client.paged_query q resume expanded sf so (some p)) = true := by
  unfold Client.paged_query
  rcases client_validate_sort_field_cases (some (pyOrStr sf "publication_date")) with hf | hf <;>
    simp only [hf]
  · rcases client_validate_sort_order_cases (some (pyOrStr so "desc")) with ho | ho <;>
      simp only [ho]
    · rw [pyOrInt_some (by omega : p ≠ 0), client_validate_page_size_neg hp]
      rfl
    · rfl
  · rfl

/-- C5 (amended): a listing call whose supplied page_size is negative fails
with a ValidationError (HTTP 400) before the backend response is consulted,
in both modules; a supplied page_size of 0 is treated as unspecified (see the
counterexample). -/
theorem claim_c5 (uuh : Option String → String) (maxpage : Int) (q : String)
    (resume : Option String) (expanded : Bool) (sf so : Option String)
    (hits : List Hit) (p : Int) (hp : p < 0) :
    isValidationError (Api.search_result uuh maxpage q resume expanded sf so (some p) hits) = true ∧
    isValidationError (Client.search_result uuh maxpage q resume expanded sf so (some p) hits) = true := by
  constructor
  · have h := api_cs_paged_query_neg q resume expanded sf so maxpage hp
    cases hq : Api.cs_paged_query q resume expanded sf so (some p) maxpage with
    | error e =>
      rw [api_search_result_error uuh maxpage q resume expanded sf so (some p) hits hq]
      rw [hq] at h
      exact isValidationError_cast h
    | ok body => rw [hq] at h; simp [isValidationError] at h
  · have h := client_paged_query_neg q resume expanded sf so hp
    cases hq : Client.paged_query q resume expanded sf so (some p) with
    | error e =>
      rw [client_search_result_error uuh maxpage q resume expanded sf so (some p) hits hq]
      rw [hq] at h
      exact isValidationError_cast h
    | ok body => rw [hq] at h; simp [isValidationError] at h

/-- C5 witness: at page_size = -10 the listing calls fail with a 400
validation error in both modules. -/
theorem claim_c5_witness :
    isValidationError (Api.search_result hashStub 1000 "q" none false none none (some (-10)) [hitA]) = true ∧
    isValidationError (Client.search_result hashStub 1000 "q" none false none none (some (-10)) [hitA]) = true :=
  claim_c5 hashStub 1000 "q" none false none none [hitA] (-10) (by decide)

/-- C6 (amended): a supplied, non-empty sort_order outside {asc, desc} or a
supplied, non-empty sort_field outside {publication_date, indexed_date}
makes the listing call fail with a ValidationError (HTTP 400) before the
backend response is consulted, in both modules; empty strings are treated as
unspecified (see the counterexample). -/
theorem claim_c6 (uuh : Option String → String) (maxpage : Int) (q : String)
    (resume : Option String) (expanded : Bool) (sf so : Option String)
    (ps : Option Int) (hits : List Hit) :
    (∀ s, s ≠ "" → s ∉ Api.VALID_SORT_ORDERS →
      isValidationError (Api.search_result uuh maxpage q resume expanded sf (some s) ps hits) = true ∧
      isValidationError (Client.search_result uuh maxpage q resume expanded sf (some s) ps hits) = true) ∧
    (∀ s, s ≠ "" → s ∉ Api.VALID_SORT_FIELDS →
      isValidationError (Api.search_result uuh maxpage q resume expanded (some s) so ps hits) = true ∧
      isValidationError (Client.search_result uuh maxpage q resume expanded (some s) so ps hits) = true) := by
  constructor
  · intro s hne hmem
    have hvo : Api.validate_sort_order (some (pyOrStr (some s) "desc")) =
        .error (.httpException 400 "Invalid sort order (must be on of asc, desc)") := by
      rw [pyOrStr_some hne]
      unfold Api.validate_sort_order
      rw [if_pos]
      simp [pyTruthyStr, hne]
      simpa [Api.VALID_SORT_ORDERS] using hmem
    have hvoC : Client.validate_sort_order (some (pyOrStr (some s) "desc")) =
        .error (.httpException 400 "Invalid sort order (must be on of asc, desc)") := hvo
    constructor
    · have hq : isValidationError
          (Api.cs_paged_query q resume expanded sf (some s) ps maxpage) = true := by
        unfold Api.cs_paged_query
        rcases api_validate_sort_field_cases (some (pyOrStr sf "publication_date")) with hf | hf <;>
          simp only [hf]
        · simp only [hvo]
          rfl
        · rfl
      cases hcs : Api.cs_paged_query q resume expanded sf (some s) ps maxpage with
      | error e =>
        rw [api_search_result_error uuh maxpage q resume expanded sf (some s) ps hits hcs]
        rw [hcs] at hq
        exact isValidationError_cast hq
      | ok body => rw [hcs] at hq; simp [isValidationError] at hq
    · have hq : isValidationError (Client.paged_query q resume expanded sf (some s) ps) = true := by
        unfold Client.paged_query
        rcases client_validate_sort_field_cases (some (pyOrStr sf "publication_date")) with hf | hf <;>
          simp only [hf]
        · simp only [hvoC]
          rfl
        · rfl
      cases hcs : Client.paged_query q resume expanded sf (some s) ps with
      | error e =>
        rw [client_search_result_error uuh maxpage q resume expanded sf (some s) ps hits hcs]
        rw [hcs] at hq
        exact isValidationError_cast hq
      | ok body => rw [hcs] at hq; simp [isValidationError] at hq
  · intro s hne hmem
    have hvf : Api.validate_sort_field (some (pyOrStr (some s) "publication_date")) =
        .error (.httpException 400 "Invalid sort field (must be on of publication_date, indexed_date)") := by
      rw [pyOrStr_some hne]
      unfold Api.validate_sort_field
      rw [if_pos]
      simp [pyTruthyStr, hne]
      simpa [Api.VALID_SORT_FIELDS] using hmem
    have hvfC : Client.validate_sort_field (some (pyOrStr (some s) "publication_date")) =
        .error (.httpException 400 "Invalid sort field (must be on of publication_date, indexed_date)") := hvf
    constructor
    · have hq : isValidationError
          (Api.cs_paged_query q resume expanded (some s) so ps maxpage) = true := by
        unfold Api.cs_paged_query
        simp only [hvf]
        rfl
      cases hcs : Api.cs_paged_query q resume expanded (some s) so ps maxpage with
      | error e =>
        rw [api_search_result_error uuh maxpage q resume expanded (some s) so ps hits hcs]
        rw [hcs] at hq
        exact isValidationError_cast hq
      | ok body => rw [hcs] at hq; simp [isValidationError] at hq
    · have hq : isValidationError (Client.paged_query q resume expanded (some s) so ps) = true := by
        unfold Client.paged_query
        simp only [hvfC]
        rfl
      cases hcs : Client.paged_query q resume expanded (some s) so ps with
      | error e =>
        rw [client_search_result_error uuh maxpage q resume expanded (some s) so ps hits hcs]
        rw [hcs] at hq
        exact isValidationError_cast hq
      | ok body => rw [hcs] at hq; simp [isValidationError] at hq

/-- C6 witness: at sort_order = "foo" and sort_field = "imagined_date" the
listing calls fail with 400 validation errors in both modules. -/
theorem claim_c6_witness :
    (isValidationError (Api.search_result hashStub 1000 "q" none false none (some "foo") none [hitA]) = true ∧
     isValidationError (Client.search_result hashStub 1000 "q" none false none (some "foo") none [hitA]) = true) ∧
    (isValidationError (Api.search_result hashStub 1000 "q" none false (some "imagined_date") none none [hitA]) = true ∧
     isValidationError (Client.search_result hashStub 1000 "q" none false (some "imagined_date") none none [hitA]) = true) :=
  ⟨(claim_c6 hashStub 1000 "q" none false none none none [hitA]).1 "foo" (by decide) (by decide),
   (claim_c6 hashStub 1000 "q" none false none none none [hitA]).2 "imagined_date" (by decide) (by decide)⟩

theorem api_cs_paged_query_ok_resume (q r v : String) (expanded : Bool)
    (sf so : Option String) (ps : Option Int) (maxpage : Int) (body : EsBody)
    (hr : r ≠ "") (hv : Api.decode r = some v)
    (h : Api.cs_paged_query q (some r) expanded sf so ps maxpage = .ok body) :
    body = Api.cs_basic_query q expanded ++
      [("size", .n (pyOrInt ps maxpage)),
       ("track_total_hits", .b false),
       ("sort", .obj [(pyOrStr sf "publication_date", .obj
          [("order", .s (pyOrStr so "desc")),
           ("format", .s "basic_date_time_no_millis")])])] ++
      [("search_after", .arr [.s v])] := by
  unfold Api.cs_paged_query at h
  rcases api_validate_sort_field_cases (some (pyOrStr sf "publication_date")) with hf | hf
  swap
  · simp [hf] at h
  simp only [hf] at h
  rcases api_validate_sort_order_cases (some (pyOrStr so "desc")) with ho | ho
  swap
  · simp [ho] at h
  simp only [ho] at h
  rcases api_validate_page_size_cases (some (pyOrInt ps maxpage)) with hps | hps
  swap
  · simp [hps] at h
  simp only [hps] at h
  rw [show pyTruthyStr (some r) = true by simp [pyTruthyStr, hr]] at h
  simp only [if_true, Option.getD_some, hv] at h
  simp only [Except.ok.injEq] at h
  rw [← h]

theorem client_paged_query_ok_resume (q r v : String) (expanded : Bool)
    (sf so : Option String) (ps : Option Int) (body : EsBody)
    (hr : r ≠ "") (hv : Client.decode_key r = some v)
    (h : Client.paged_query q (some r) expanded sf so ps = .ok body) :
    body = Client.basic_query q expanded ++
      [("size", .n (pyOrInt ps 1000)),
       ("track_total_hits", .b false),
       ("sort", .obj [(pyOrStr sf "publication_date", .obj
          [("order", .s (pyOrStr so "desc")),
           ("format", .s "basic_date_time_no_millis")])])] ++
      [("search_after", .arr [.s v])] := by
  unfold Client.paged_query at h
  rcases client_validate_sort_field_cases (some (pyOrStr sf "publication_date")) with hf | hf
  swap
  · simp [hf] at h
  simp only [hf] at h
  rcases client_validate_sort_order_cases (some (pyOrStr so "desc")) with ho | ho
  swap
  · simp [ho] at h
  simp only [ho] at h
  rcases client_validate_page_size_cases (some (pyOrInt ps 1000)) with hps | hps
  swap
  · simp [hps] at h
  simp only [hps] at h
  rw [show pyTruthyStr (some r) = true by simp [pyTruthyStr, hr]] at h
  simp only [if_true, Option.getD_some, hv] at h
  simp only [Except.ok.injEq] at h
  rw [← h]

/-- C3: a paged query built with a non-empty resume token carries
`search_after` = the one-element list holding the decoded token, a sort
clause on the single validated field in the validated direction, and size =
the validated page size; no "from" key is ever present; in both modules. -/
theorem claim_c3 (q r v : String) (expanded : Bool) (sf so : Option String)
    (ps : Option Int) (maxpage : Int) (bodyA bodyC : EsBody)
    (hr : r ≠ "") (hv : Api.decode r = some v)
    (hA : Api.cs_paged_query q (some r) expanded sf so ps maxpage = .ok bodyA)
    (hC : Client.paged_query q (some r) expanded sf so ps = .ok bodyC) :
    (bodyA.lookup "search_after" = some (.arr [.s v]) ∧
     bodyA.lookup "sort" = some (.obj [(pyOrStr sf "publication_date", .obj
        [("order", .s (pyOrStr so "desc")), ("format", .s "basic_date_time_no_millis")])]) ∧
     bodyA.lookup "size" = some (.n (pyOrInt ps maxpage)) ∧
     "from" ∉ bodyA.map Prod.fst) ∧
    (bodyC.lookup "search_after" = some (.arr [.s v]) ∧
     bodyC.lookup "sort" = some (.obj [(pyOrStr sf "publication_date", .obj
        [("order", .s (pyOrStr so "desc")), ("format", .s "basic_date_time_no_millis")])]) ∧
     bodyC.lookup "size" = some (.n (pyOrInt ps 1000)) ∧
     "from" ∉ bodyC.map Prod.fst) := by
  rw [api_cs_paged_query_ok_resume q r v expanded sf so ps maxpage bodyA hr hv hA,
    client_paged_query_ok_resume q r v expanded sf so ps bodyC hr
      (show Client.decode_key r = some v from hv) hC]
  unfold Api.cs_basic_query Client.basic_query
  refine ⟨⟨?_, ?_, ?_, ?_⟩, ?_, ?_, ?_, ?_⟩ <;> simp [List.lookup]

/-- C3 witness: the paged-query bodies built with resume token "YWJj"
(decoding to "abc") and default parameters carry the stated search_after,
sort and size entries and no "from" key. -/
theorem claim_c3_witness :
    (c3ApiBody.lookup "search_after" = some (.arr [.s "abc"]) ∧
     c3ApiBody.lookup "sort" = some (.obj [("publication_date", .obj
        [("order", .s "desc"), ("format", .s "basic_date_time_no_millis")])]) ∧
     c3ApiBody.lookup "size" = some (.n 1000) ∧
     "from" ∉ c3ApiBody.map Prod.fst) ∧
    (c3ClientBody.lookup "search_after" = some (.arr [.s "abc"]) ∧
     c3ClientBody.lookup "sort" = some (.obj [("publication_date", .obj
        [("order", .s "desc"), ("format", .s "basic_date_time_no_millis")])]) ∧
     c3ClientBody.lookup "size" = some (.n 1000) ∧
     "from" ∉ c3ClientBody.map Prod.fst) :=
  claim_c3 "q" "YWJj" "abc" false none none none 1000 c3ApiBody c3ClientBody
    (by decide) rfl rfl rfl

namespace Codec

theorem a2b_skip (c : Char) (hcv : charVal c = none) (hne : c ≠ '=') :
    ∀ (xs ys : List Char) (q l p : Nat) (out : List Nat),
      a2b (xs ++ c :: ys) q l p out = a2b (xs ++ ys) q l p out := by
  intro xs
  induction xs with
  | nil =>
    intro ys q l p out
    simp only [List.nil_append, a2b, if_neg hne, hcv]
  | cons x xs ih =>
    intro ys q l p out
    simp only [List.cons_append, a2b]
    by_cases hx : x = '='
    · rw [if_pos hx, if_pos hx]
      by_cases h2 : 2 ≤ q
      · rw [if_pos h2, if_pos h2]
        by_cases h4 : 4 ≤ q + (p + 1)
        · rw [if_pos h4, if_pos h4]
        · rw [if_neg h4, if_neg h4]
          exact ih ys q l (p + 1) out
      · rw [if_neg h2, if_neg h2]
        exact ih ys q l p out
    · rw [if_neg hx, if_neg hx]
      cases hcx : charVal x with
      | none =>
        simp only [hcx]
        exact ih ys q l p out
      | some d =>
        simp only [hcx]
        rcases q with _ | _ | _ | q
        · exact ih ys 1 d 0 out
        · exact ih ys 2 (d % 16) 0 ((l * 4 + d / 16) :: out)
        · exact ih ys 3 (d % 4) 0 ((l * 16 + d / 4) :: out)
        · exact ih ys 0 0 0 ((l * 64 + d) :: out)

end Codec

theorem api_cs_paged_query_decode_fail (q t : String) (expanded : Bool) (maxpage : Int)
    (hm : 0 < maxpage) (ht : t ≠ "") (hd : Api.decode t = none) :
    Api.cs_paged_query q (some t) expanded none none none maxpage = .error .binasciiError := by
  unfold Api.cs_paged_query
  have hp : Api.validate_page_size (some (pyOrInt none maxpage)) = .ok (some maxpage) := by
    unfold Api.validate_page_size
    rw [if_neg]
    · rfl
    · simp [pyTruthyInt, pyOrInt]
      omega
  simp only [show Api.validate_sort_field (some (pyOrStr none "publication_date")) =
      .ok (some "publication_date") from rfl,
    show Api.validate_sort_order (some (pyOrStr none "desc")) = .ok (some "desc") from rfl,
    hp]
  rw [show pyTruthyStr (some t) = true by simp [pyTruthyStr, ht]]
  simp only [if_true, Option.getD_some, hd]

theorem client_paged_query_decode_fail (q t : String) (expanded : Bool)
    (ht : t ≠ "") (hd : Client.decode_key t = none) :
    Client.paged_query q (some t) expanded none none none = .error .binasciiError := by
  unfold Client.paged_query
  simp only [show Client.validate_sort_field (some (pyOrStr none "publication_date")) =
      .ok (some "publication_date") from rfl,
    show Client.validate_sort_order (some (pyOrStr none "desc")) = .ok (some "desc") from rfl,
    show Client.validate_page_size (some (pyOrInt none 1000)) = .ok (some 1000) from rfl]
  rw [show pyTruthyStr (some t) = true by simp [pyTruthyStr, ht]]
  simp only [if_true, Option.getD_some, hd]

/-- C4 (amended): cursor decode discards characters outside the URL-safe
base64 alphabet plus '~' instead of failing on them (both modules share the
codec); when decoding does fail, the listing call surfaces the failure as an
uncaught internal binascii error, not as a ValidationError. -/
theorem claim_c4 (t₁ t₂ : List Char) (c : Char) (uuh : Option String → String)
    (q : String) (expanded : Bool) (maxpage : Int) (hits : List Hit) (t : String)
    (hcv : Codec.charVal c = none) (hne : c ≠ '=') (hnt : c ≠ '~')
    (hm : 0 < maxpage) (ht : t ≠ "") (hd : Api.decode t = none) :
    (Api.decode (String.mk (t₁ ++ c :: t₂)) = Api.decode (String.mk (t₁ ++ t₂)) ∧
     Client.decode_key (String.mk (t₁ ++ c :: t₂)) = Client.decode_key (String.mk (t₁ ++ t₂))) ∧
    (Api.search_result uuh maxpage q (some t) expanded none none none hits = .error .binasciiError ∧
     Client.search_result uuh maxpage q (some t) expanded none none none hits = .error .binasciiError) := by
  have hskip : Codec.b64StrDecode (String.mk (t₁ ++ c :: t₂)) =
      Codec.b64StrDecode (String.mk (t₁ ++ t₂)) := by
    unfold Codec.b64StrDecode
    rw [show (String.mk (t₁ ++ c :: t₂)).data = t₁ ++ c :: t₂ from rfl,
      show (String.mk (t₁ ++ t₂)).data = t₁ ++ t₂ from rfl]
    simp only [List.map_append, List.map_cons]
    rw [show (if c = '~' then '=' else c) = c from if_neg hnt]
    rw [Codec.a2b_skip c hcv hne]
  refine ⟨⟨hskip, hskip⟩, ?_, ?_⟩
  · exact api_search_result_error uuh maxpage q (some t) expanded none none none hits
      (api_cs_paged_query_decode_fail q t expanded maxpage hm ht hd)
  · exact client_search_result_error uuh maxpage q (some t) expanded none none none hits
      (client_paged_query_decode_fail q t expanded ht
        (show Client.decode_key t = none from hd))

/-- C4 witness: appending '!' to the token "YWJj" leaves its decoding
unchanged, and the undecodable token "YQ" makes the listing calls fail with
the uncaught binascii error in both modules. -/
theorem claim_c4_witness :
    (Api.decode (String.mk (("YWJj" : String).data ++ '!' :: [])) =
      Api.decode (String.mk (("YWJj" : String).data ++ [])) ∧
     Client.decode_key (String.mk (("YWJj" : String).data ++ '!' :: [])) =
      Client.decode_key (String.mk (("YWJj" : String).data ++ []))) ∧
    (Api.search_result hashStub 1 "q" (some "YQ") false none none none [] = .error .binasciiError ∧
     Client.search_result hashStub 1 "q" (some "YQ") false none none none [] = .error .binasciiError) :=
  claim_c4 ("YWJj" : String).data [] '!' hashStub "q" false 1 [] "YQ"
    rfl (by decide) (by decide) (by decide) (by decide) rfl


theorem lookup_append_right {α : Type} {k : String} {l1 l2 : List (String × α)}
    (h : ∀ kv ∈ l1, kv.1 ≠ k) : List.lookup k (l1 ++ l2) = List.lookup k l2 := by
  induction l1 with
  | nil => rfl
  | cons a t ih =>
    obtain ⟨k1, v1⟩ := a
    have hk : (k == k1) = false := by
      have ha := h (k1, v1) (List.mem_cons_self _ t)
      simp only [ne_eq] at ha
      simp [beq_eq_false_iff_ne]
      exact fun hkk => ha hkk.symm
    simp only [List.cons_append, List.lookup, hk]
    exact ih (fun kv hkv => h kv (List.mem_cons_of_mem _ hkv))

theorem formatAgg_ok_key {res : Client.ClientResponse} {agg : Client.Aggregator}
    {e : String × Client.RetVal} (h : Client.formatAgg res agg = .ok e) :
    e.1 = agg.aggName := by
  unfold Client.formatAgg at h
  cases hl : res.aggregations.lookup agg.aggName with
  | none => simp [hl] at h
  | some buckets =>
    simp only [hl] at h
    split at h <;>
      (simp only [Except.ok.injEq] at h
       rw [← h])

theorem formatAggs_keys {res : Client.ClientResponse} :
    ∀ {aggs : List Client.Aggregator} {entries : List (String × Client.RetVal)},
      Client.formatAggs res aggs = .ok entries → ∀ kv ∈ entries, kv.1 ≠ "total" := by
  intro aggs
  induction aggs with
  | nil =>
    intro entries h kv hm
    simp only [Client.formatAggs, Except.ok.injEq] at h
    rw [← h] at hm
    simp at hm
  | cons agg rest ih =>
    intro entries h kv hm
    unfold Client.formatAggs at h
    cases he : Client.formatAgg res agg with
    | error e => simp [he] at h
    | ok entry =>
      simp only [he] at h
      cases hr : Client.formatAggs res rest with
      | error e => simp [hr] at h
      | ok entries' =>
        simp only [hr, Except.ok.injEq] at h
        rw [← h] at hm
        rcases List.mem_cons.mp hm with hkv | hkv
        · rw [hkv, formatAgg_ok_key he]
          cases agg <;> decide
        · exact ih hr kv hkv

/-- C8 (amended): for every non-empty overview backend response, the api
module reports `total = max(backend total, TLD-bucket doc-count sum)`, while
the client module reports `total = max(backend total, top-domains-bucket
doc-count sum)` (its overview requests no TLD aggregation at all). -/
theorem claim_c8 (uuh : Option String → String) (q : String)
    (resA : Api.OverviewResponse) (o : Api.Overview)
    (aggs : List Client.Aggregator) (resC : Client.ClientResponse)
    (rd : List (String × Client.RetVal)) (buckets : List Bucket)
    (hA : Api.search_overview uuh q resA = .ok o)
    (hC : Client.aggregator_query uuh q aggs true resC = .ok rd)
    (hB : resC.aggregations.lookup "topdomains" = some buckets) :
    o.total = max resA.total_value ((resA.tld_buckets.map (fun b => b.doc_count)).sum) ∧
    rd.lookup "total" =
      some (.num (max resC.total_value ((buckets.map (fun b => b.doc_count)).sum))) := by
  constructor
  · unfold Api.search_overview at hA
    split at hA
    · simp at hA
    · simp only [Except.ok.injEq] at hA
      rw [← hA]
  · unfold Client.aggregator_query at hC
    split at hC
    · simp at hC
    · cases hfa : Client.formatAggs resC aggs with
      | error e => simp [hfa] at hC
      | ok entries =>
        simp only [hfa, if_true] at hC
        split at hC
        · simp at hC
        · simp only [hB, Except.ok.injEq] at hC
          rw [← hC]
          have hkeys : ∀ kv ∈ (("query", Client.RetVal.str q) :: entries), kv.1 ≠ "total" := by
            intro kv hkv
            rcases List.mem_cons.mp hkv with hkv | hkv
            · rw [hkv]
              simp
            · exact formatAggs_keys hfa kv hkv
          rw [show (([("query", Client.RetVal.str q)] ++ entries) ++
              [("total", Client.RetVal.num (max resC.total_value
                ((buckets.map (fun b => b.doc_count)).sum))),
               ("matches", Client.RetVal.«matches»
                 (resC.hits.map (fun h => Client.format_match uuh h false)))]) =
              ((("query", Client.RetVal.str q) :: entries) ++
              [("total", Client.RetVal.num (max resC.total_value
                ((buckets.map (fun b => b.doc_count)).sum))),
               ("matches", Client.RetVal.«matches»
                 (resC.hits.map (fun h => Client.format_match uuh h false)))]) from rfl]
          rw [lookup_append_right hkeys]
          rfl

/-- C8 witness: at the concrete responses the api overview reports
`max 1000 1050` from its TLD buckets and the client overview reports
`max 1000 1050` from its top-domains buckets. -/
theorem claim_c8_witness :
    c8ApiOut.total = max 1000 1050 ∧
    c8ClientOut.lookup "total" = some (.num (max 1000 1050)) := by
  have h := claim_c8 hashStub "q" ovFull c8ApiOut
    [.DAILY_COUNTS, .TOP_LANGS, .TOP_DOMAINS] c8res c8ClientOut
    [{ key := "example.com", doc_count := 1050 }] rfl rfl rfl
  exact ⟨h.1, h.2⟩

end NewsSearch
